import Mathlib

/-!
Verification of the topics/cards CRUD service.

The definitions below are a shallow embedding of the Python source:
`app/services/content_generator.py`, `app/routes/topics.py`,
`app/routes/cards.py` and `app/models.py` (with the constant
`VALID_CARD_TYPES` as defined in `app.py`).  The relational store is
modelled as explicit lists of rows with auto-increment id counters;
each Flask handler becomes a function from the request data and the
store to a response value and the successor store.  JSON bodies are
modelled by structures with `Option` fields (`none` = key absent),
and an absent/unparsable body by an outer `Option`.
-/

/-- `VALID_CARD_TYPES` from `app.py` line 25 (a Python set literal;
modelled as the list of its elements in source order). -/
def VALID_CARD_TYPES : List String :=
  ["flashcard", "summary", "quiz", "task", "usecase", "mindmap"]

/-- `generate_dummy_content` from `app/services/content_generator.py`:
the placeholder content generator, an if/elif chain on `card_type`
with a generic fallback. -/
def generate_dummy_content (topic : String) (card_type : String) : String :=
  if card_type = "flashcard" then
    "Q: What is " ++ topic ++ "?\nA: This is a simple explanation of " ++ topic ++ "."
  else if card_type = "summary" then
    "Summary for " ++ topic ++ ": this is a short high-level summary."
  else if card_type = "quiz" then
    "Quiz question about " ++ topic ++ ": write one key concept related to it."
  else if card_type = "task" then
    "Task for " ++ topic ++ ": perform a small exercise that uses this topic in practice."
  else if card_type = "usecase" then
    "Use case for " ++ topic ++ ": describe when and why you would use " ++ topic ++ "."
  else if card_type = "mindmap" then
    "Mindmap structure for " ++ topic ++ ": main idea -> subtopic A, subtopic B, subtopic C."
  else
    "Generic content for " ++ topic ++ " (type: " ++ card_type ++ ")."

/-- A row of the `topics` table (`app/models.py`).  `created_at` is an
abstract timestamp. -/
structure Topic where
  id : Nat
  name : String
  created_at : Nat
deriving Repr, DecidableEq

/-- A row of the `cards` table (`app/models.py`). -/
structure Card where
  id : Nat
  topic_id : Nat
  card_type : String
  content : String
  created_at : Nat
deriving Repr, DecidableEq

/-- The relational store: the two tables in insertion (= rowid) order,
plus the auto-increment counters that produce the next primary keys. -/
structure Store where
  topics : List Topic
  cards : List Card
  nextTopicId : Nat
  nextCardId : Nat
deriving Repr, DecidableEq

/-- The empty database, as produced by `db.create_all()`. -/
def Store.empty : Store := ⟨[], [], 1, 1⟩

/-- JSON body of `POST /topics`.  `topic = none` models the `"topic"`
key being absent; `formats = none` models the `"formats"` key being
absent (the handler then defaults it to `[]`). -/
structure CreateBody where
  topic : Option String
  formats : Option (List String)
deriving Repr, DecidableEq

/-- JSON body of `PUT /cards/{id}`; a `none` field models the key
being absent (or its value being JSON `null`). -/
structure UpdateBody where
  card_type : Option String
  content : Option String
deriving Repr, DecidableEq

/-- Response of `POST /topics` (`create_topic` in `app/routes/topics.py`). -/
inductive CreateResult where
  | badRequest (msg : String)
  | badFormat (offending : String) (allowed : List String)
  | conflict (msg : String)
  | created (topic : Topic) (cards : List Card)
deriving Repr, DecidableEq

/-- HTTP status code of a `CreateResult`. -/
def CreateResult.status : CreateResult → Nat
  | .badRequest _ => 400
  | .badFormat _ _ => 400
  | .conflict _ => 409
  | .created _ _ => 201

/-- Response of the card-listing endpoints (`get_cards`,
`get_topic_cards`). -/
inductive ListResult where
  | notFound
  | badType (allowed : List String)
  | ok (cards : List Card)
deriving Repr, DecidableEq

/-- HTTP status code of a `ListResult`. -/
def ListResult.status : ListResult → Nat
  | .notFound => 404
  | .badType _ => 400
  | .ok _ => 200

/-- Response of `PUT /cards/{id}` (`update_card`). -/
inductive UpdateResult where
  | notFound
  | badType (allowed : List String)
  | ok (card : Card)
deriving Repr, DecidableEq

/-- HTTP status code of an `UpdateResult`. -/
def UpdateResult.status : UpdateResult → Nat
  | .notFound => 404
  | .badType _ => 400
  | .ok _ => 200

/-- Response of `DELETE /cards/{id}` (`delete_card`): either 404 or the
confirmation payload `{"status": "deleted", "id": card_id}`. -/
inductive DeleteResult where
  | notFound
  | deleted (stat : String) (id : Nat)
deriving Repr, DecidableEq

/-- HTTP status code of a `DeleteResult`. -/
def DeleteResult.status : DeleteResult → Nat
  | .notFound => 404
  | .deleted _ _ => 200

/-- Python `str.strip()` with no argument: remove whitespace from both
ends of the string.  Modelled over the character list so that it
evaluates by kernel reduction. -/
def pstrip (s : String) : String :=
  ⟨((s.data.dropWhile Char.isWhitespace).reverse.dropWhile Char.isWhitespace).reverse⟩

/-- Python truthiness of `request.args.get("type")`: the filter branch
runs only when the parameter is present and non-empty
(`if card_type:` in the handlers). -/
def truthy : Option String → Bool
  | none => false
  | some t => !(t == "")

/-- The card rows inserted by the loop in `create_topic`: one card per
entry of `formats`, in order, with consecutive auto-increment ids
starting at `cid`, all referencing topic `tid`, with content from
`generate_dummy_content`. -/
def mkCards (tid : Nat) (name : String) (now : Nat) : Nat → List String → List Card
  | _, [] => []
  | cid, ct :: rest =>
    { id := cid, topic_id := tid, card_type := ct,
      content := generate_dummy_content name ct, created_at := now }
      :: mkCards tid name now (cid + 1) rest

/-- Handler of `POST /topics` (`create_topic` in `app/routes/topics.py`).
`data = none` models a missing/falsy JSON body; `now` is the timestamp
the store assigns to `created_at` columns.  Returns the response and
the store after the request. -/
def create_topic (s : Store) (now : Nat) (data : Option CreateBody) :
    CreateResult × Store :=
  match data with
  | none => (.badRequest "Missing 'topic' in request body", s)
  | some d =>
    match d.topic with
    | none => (.badRequest "Missing 'topic' in request body", s)
    | some raw =>
      let topic_name := pstrip raw
      let formats := d.formats.getD []
      if topic_name = "" then
        (.badRequest "Topic name cannot be empty", s)
      else if formats = [] then
        (.badRequest "Formats must be a non-empty list", s)
      else
        match formats.find? (fun f => !(VALID_CARD_TYPES.contains f)) with
        | some f => (.badFormat f VALID_CARD_TYPES, s)
        | none =>
          if (s.topics.find? (fun t => t.name == topic_name)).isSome then
            (.conflict "Topic already exists", s)
          else
            let new_topic : Topic :=
              { id := s.nextTopicId, name := topic_name, created_at := now }
            let created_cards := mkCards new_topic.id topic_name now s.nextCardId formats
            (.created new_topic created_cards,
              { topics := s.topics ++ [new_topic],
                cards := s.cards ++ created_cards,
                nextTopicId := s.nextTopicId + 1,
                nextCardId := s.nextCardId + formats.length })

/-- Handler of `GET /topics/{id}/cards` (`get_topic_cards` in
`app/routes/topics.py`): 404 before any filter validation, then the
truthiness-guarded type filter.  Read-only, so only the response is
returned. -/
def get_topic_cards (s : Store) (topic_id : Nat) (typ : Option String) :
    ListResult :=
  match s.topics.find? (fun t => t.id == topic_id) with
  | none => .notFound
  | some _ =>
    let base := s.cards.filter (fun c => c.topic_id == topic_id)
    if truthy typ then
      let t := typ.getD ""
      if VALID_CARD_TYPES.contains t then
        .ok (base.filter (fun c => c.card_type == t))
      else
        .badType VALID_CARD_TYPES
    else
      .ok base

/-- Handler of `GET /cards` (`get_cards` in `app/routes/cards.py`):
the global card listing with the same truthiness-guarded type filter. -/
def get_cards (s : Store) (typ : Option String) : ListResult :=
  if truthy typ then
    let t := typ.getD ""
    if VALID_CARD_TYPES.contains t then
      .ok (s.cards.filter (fun c => c.card_type == t))
    else
      .badType VALID_CARD_TYPES
  else
    .ok s.cards

/-- Applying the provided body fields to the fetched card object, as the
assignments `card.card_type = ...` / `card.content = ...` do (this is
only reached once a provided `card_type` has passed validation). -/
def applyBody (d : UpdateBody) (c : Card) : Card :=
  let c1 := match d.card_type with
    | some nct => { c with card_type := nct }
    | none => c
  match d.content with
  | some nc => { c1 with content := nc }
  | none => c1

/-- Committing an ORM update of the row fetched by primary key:
replace the first card whose id matches. -/
def setCard : List Card → Nat → Card → List Card
  | [], _, _ => []
  | x :: xs, cid, c => if x.id = cid then c :: xs else x :: setCard xs cid c

/-- Deleting the row fetched by primary key: remove the first card
whose id matches. -/
def removeCard : List Card → Nat → List Card
  | [], _ => []
  | x :: xs, cid => if x.id = cid then xs else x :: removeCard xs cid

/-- Handler of `PUT /cards/{id}` (`update_card` in
`app/routes/cards.py`).  `data = none` models an absent or non-JSON
body (`request.get_json(silent=True) or {}` turns those into `{}`). -/
def update_card (s : Store) (card_id : Nat) (data : Option UpdateBody) :
    UpdateResult × Store :=
  match s.cards.find? (fun c => c.id == card_id) with
  | none => (.notFound, s)
  | some card =>
    let d := data.getD ⟨none, none⟩
    match d.card_type with
    | some nct =>
      if VALID_CARD_TYPES.contains nct then
        let card2 := applyBody d card
        (.ok card2, { s with cards := setCard s.cards card_id card2 })
      else
        (.badType VALID_CARD_TYPES, s)
    | none =>
      let card2 := applyBody d card
      (.ok card2, { s with cards := setCard s.cards card_id card2 })

/-- Handler of `DELETE /cards/{id}` (`delete_card` in
`app/routes/cards.py`). -/
def delete_card (s : Store) (card_id : Nat) : DeleteResult × Store :=
  match s.cards.find? (fun c => c.id == card_id) with
  | none => (.notFound, s)
  | some _ =>
    (.deleted "deleted" card_id, { s with cards := removeCard s.cards card_id })

/-- The store states reachable from the empty database through the
exposed mutating operations (the listing endpoints are read-only). -/
inductive Reachable : Store → Prop
  | init : Reachable Store.empty
  | create {s : Store} (now : Nat) (data : Option CreateBody) :
      Reachable s → Reachable (create_topic s now data).2
  | update {s : Store} (cid : Nat) (data : Option UpdateBody) :
      Reachable s → Reachable (update_card s cid data).2
  | delete {s : Store} (cid : Nat) :
      Reachable s → Reachable (delete_card s cid).2

/-- The data-model invariant of claim C5: every stored card has a valid
type and a parent topic present in the store. -/
def Invariant (s : Store) : Prop :=
  ∀ c ∈ s.cards, c.card_type ∈ VALID_CARD_TYPES ∧ ∃ t ∈ s.topics, t.id = c.topic_id

/-! ## Lemmas about the card-creation loop -/

theorem mkCards_map_card_type (tid : Nat) (name : String) (now : Nat) :
    ∀ (cid : Nat) (fs : List String),
      (mkCards tid name now cid fs).map Card.card_type = fs := by
  intro cid fs
  induction fs generalizing cid with
  | nil => rfl
  | cons f rest ih => simp [mkCards, ih]

theorem mkCards_map_content (tid : Nat) (name : String) (now : Nat) :
    ∀ (cid : Nat) (fs : List String),
      (mkCards tid name now cid fs).map Card.content
        = fs.map (generate_dummy_content name) := by
  intro cid fs
  induction fs generalizing cid with
  | nil => rfl
  | cons f rest ih => simp [mkCards, ih]

theorem mkCards_topic_id (tid : Nat) (name : String) (now : Nat) :
    ∀ (cid : Nat) (fs : List String),
      ∀ c ∈ mkCards tid name now cid fs, c.topic_id = tid := by
  intro cid fs
  induction fs generalizing cid with
  | nil => intro c hc; simp [mkCards] at hc
  | cons f rest ih =>
    intro c hc
    simp only [mkCards, List.mem_cons] at hc
    rcases hc with rfl | hc
    · rfl
    · exact ih _ c hc

theorem mkCards_length (tid : Nat) (name : String) (now : Nat)
    (cid : Nat) (fs : List String) :
    (mkCards tid name now cid fs).length = fs.length := by
  have := mkCards_map_card_type tid name now cid fs
  calc (mkCards tid name now cid fs).length
      = ((mkCards tid name now cid fs).map Card.card_type).length := by
        rw [List.length_map]
    _ = fs.length := by rw [this]

/-! ## C4: the content generator -/

/-- C4: the Content Generator is a pure total function of
(topic_name, card_type): each of the six card types yields exactly its
templated string with the topic substituted, every other card_type
yields the generic string instead of failing, and two calls with equal
arguments return equal strings. -/
theorem C4_generator_spec (topic ct : String) :
    (generate_dummy_content topic "flashcard"
        = "Q: What is " ++ topic ++ "?\nA: This is a simple explanation of " ++ topic ++ "."
      ∧ generate_dummy_content topic "summary"
        = "Summary for " ++ topic ++ ": this is a short high-level summary."
      ∧ generate_dummy_content topic "quiz"
        = "Quiz question about " ++ topic ++ ": write one key concept related to it."
      ∧ generate_dummy_content topic "task"
        = "Task for " ++ topic ++ ": perform a small exercise that uses this topic in practice."
      ∧ generate_dummy_content topic "usecase"
        = "Use case for " ++ topic ++ ": describe when and why you would use " ++ topic ++ "."
      ∧ generate_dummy_content topic "mindmap"
        = "Mindmap structure for " ++ topic ++ ": main idea -> subtopic A, subtopic B, subtopic C.")
    ∧ (ct ∉ VALID_CARD_TYPES →
        generate_dummy_content topic ct
          = "Generic content for " ++ topic ++ " (type: " ++ ct ++ ").")
    ∧ (∀ topic2 ct2, topic = topic2 → ct = ct2 →
        generate_dummy_content topic ct = generate_dummy_content topic2 ct2) := by
  refine ⟨⟨rfl, rfl, rfl, rfl, rfl, rfl⟩, ?_, ?_⟩
  · intro h
    simp only [VALID_CARD_TYPES, List.mem_cons, List.not_mem_nil, or_false, not_or] at h
    obtain ⟨h1, h2, h3, h4, h5, h6⟩ := h
    simp [generate_dummy_content, h1, h2, h3, h4, h5, h6]
  · intro topic2 ct2 ht hc
    rw [ht, hc]

/-- Witness for C4 at the concrete input ("X", "poem"). -/
theorem C4_generator_spec_witness :
    "poem" ∉ VALID_CARD_TYPES ∧
      generate_dummy_content "X" "poem" = "Generic content for X (type: poem)." :=
  ⟨by decide, (C4_generator_spec "X" "poem").2.1 (by decide)⟩

/-! ## C1: successful topic creation -/

/-- C1: a create-topic request whose body has a 'topic' key whose name is
non-empty after trimming and distinct from every stored Topic's name, and
whose 'formats' value is a non-empty list of valid card types, returns
201 with the created Topic and exactly one created Card per entry of
'formats', in order, each Card's content being the Content Generator's
output for (trimmed name, entry) and each Card's topic_id the new
Topic's id. -/
theorem C1_create_topic_success (s : Store) (now : Nat) (d : CreateBody)
    (raw : String) (fs : List String)
    (htopic : d.topic = some raw)
    (hname : pstrip raw ≠ "")
    (hfresh : ∀ t ∈ s.topics, t.name ≠ pstrip raw)
    (hformats : d.formats = some fs)
    (hne : fs ≠ [])
    (hvalid : ∀ f ∈ fs, f ∈ VALID_CARD_TYPES) :
    ∃ t cs,
      create_topic s now (some d) =
        (.created t cs,
          { topics := s.topics ++ [t], cards := s.cards ++ cs,
            nextTopicId := s.nextTopicId + 1,
            nextCardId := s.nextCardId + fs.length })
      ∧ (create_topic s now (some d)).1.status = 201
      ∧ t.name = pstrip raw
      ∧ cs.length = fs.length
      ∧ cs.map Card.card_type = fs
      ∧ cs.map Card.content = fs.map (generate_dummy_content (pstrip raw))
      ∧ ∀ c ∈ cs, c.topic_id = t.id := by
  have hfind : fs.find? (fun f => !decide (f ∈ VALID_CARD_TYPES)) = none := by
    rw [List.find?_eq_none]
    intro f hf
    simp [hvalid f hf]
  have hdup : s.topics.find? (fun t => t.name == pstrip raw) = none := by
    rw [List.find?_eq_none]
    intro t ht
    simp [hfresh t ht]
  have heq : create_topic s now (some d) =
      (.created (Topic.mk s.nextTopicId (pstrip raw) now)
        (mkCards s.nextTopicId (pstrip raw) now s.nextCardId fs),
        Store.mk (s.topics ++ [Topic.mk s.nextTopicId (pstrip raw) now])
          (s.cards ++ mkCards s.nextTopicId (pstrip raw) now s.nextCardId fs)
          (s.nextTopicId + 1) (s.nextCardId + fs.length)) := by
    simp [create_topic, htopic, hformats, hname, hne, hfind, hdup]
  refine ⟨_, _, heq, ?_, rfl, mkCards_length _ _ _ _ _,
    mkCards_map_card_type _ _ _ _ _, mkCards_map_content _ _ _ _ _,
    mkCards_topic_id _ _ _ _ _⟩
  rw [heq]
  rfl

/-- Witness for C1: empty store, topic " Docker volumes ",
formats ["flashcard", "summary"]. -/
theorem C1_create_topic_success_witness :
    ∃ t cs,
      create_topic Store.empty 0
          (some (CreateBody.mk (some " Docker volumes ")
            (some ["flashcard", "summary"]))) =
        (.created t cs,
          { topics := Store.empty.topics ++ [t],
            cards := Store.empty.cards ++ cs,
            nextTopicId := Store.empty.nextTopicId + 1,
            nextCardId :=
              Store.empty.nextCardId + (["flashcard", "summary"] : List String).length })
      ∧ (create_topic Store.empty 0
          (some (CreateBody.mk (some " Docker volumes ")
            (some ["flashcard", "summary"])))).1.status = 201
      ∧ t.name = pstrip " Docker volumes "
      ∧ cs.length = (["flashcard", "summary"] : List String).length
      ∧ cs.map Card.card_type = ["flashcard", "summary"]
      ∧ cs.map Card.content
          = (["flashcard", "summary"] : List String).map
              (generate_dummy_content (pstrip " Docker volumes "))
      ∧ ∀ c ∈ cs, c.topic_id = t.id :=
  C1_create_topic_success Store.empty 0 _ " Docker volumes " ["flashcard", "summary"]
    rfl (by decide) (fun t ht => absurd ht (List.not_mem_nil t)) rfl
    (by decide) (by decide)

/-! ## C2: failing topic creation persists nothing -/

theorem create_topic_store_unchanged (s : Store) (now : Nat)
    (data : Option CreateBody) :
    (∃ t cs, (create_topic s now data).1 = CreateResult.created t cs)
      ∨ (create_topic s now data).2 = s := by
  unfold create_topic
  split
  · right; rfl
  · split
    · right; rfl
    · dsimp only
      split
      · right; rfl
      · split
        · right; rfl
        · split
          · right; rfl
          · split
            · right; rfl
            · left; exact ⟨_, _, rfl⟩

/-- C2: every failing create-topic request leaves the store unchanged;
an empty-after-trimming name gives 400, a 'formats' entry outside
VALID_CARD_TYPES gives 400 naming the offending value and the allowed
set, and a name equal (case-sensitively) to an existing Topic's name
gives 409. -/
theorem C2_create_topic_failures (s : Store) (now : Nat)
    (data : Option CreateBody) (d : CreateBody) (raw : String)
    (fs : List String) :
    ((create_topic s now data).1.status ≠ 201 → (create_topic s now data).2 = s)
    ∧ (data = some d → d.topic = some raw → pstrip raw = "" →
        create_topic s now data = (.badRequest "Topic name cannot be empty", s)
          ∧ (create_topic s now data).1.status = 400)
    ∧ (data = some d → d.topic = some raw → pstrip raw ≠ "" →
        d.formats = some fs → fs ≠ [] →
        (∃ f ∈ fs, f ∉ VALID_CARD_TYPES) →
        ∃ g ∈ fs, g ∉ VALID_CARD_TYPES
          ∧ create_topic s now data = (.badFormat g VALID_CARD_TYPES, s)
          ∧ (create_topic s now data).1.status = 400)
    ∧ (data = some d → d.topic = some raw → pstrip raw ≠ "" →
        d.formats = some fs → fs ≠ [] →
        (∀ f ∈ fs, f ∈ VALID_CARD_TYPES) →
        (∃ t ∈ s.topics, t.name = pstrip raw) →
        create_topic s now data = (.conflict "Topic already exists", s)
          ∧ (create_topic s now data).1.status = 409) := by
  refine ⟨?_, ?_, ?_, ?_⟩
  · intro h
    rcases create_topic_store_unchanged s now data with ⟨t, cs, hc⟩ | h2
    · exact absurd (by rw [hc]; rfl) h
    · exact h2
  · rintro rfl htopic hempty
    have heq : create_topic s now (some d)
        = (.badRequest "Topic name cannot be empty", s) := by
      simp [create_topic, htopic, hempty]
    exact ⟨heq, by rw [heq]; rfl⟩
  · rintro rfl htopic hname hformats hne ⟨f, hf, hfbad⟩
    have hsome : (fs.find? (fun f => !decide (f ∈ VALID_CARD_TYPES))).isSome := by
      rw [List.find?_isSome]
      exact ⟨f, hf, by simp [hfbad]⟩
    obtain ⟨g, hg⟩ := Option.isSome_iff_exists.mp hsome
    have hgmem : g ∈ fs := List.mem_of_find?_eq_some hg
    have hgbad : g ∉ VALID_CARD_TYPES := by
      have := List.find?_some hg
      simpa using this
    have heq : create_topic s now (some d)
        = (.badFormat g VALID_CARD_TYPES, s) := by
      simp [create_topic, htopic, hformats, hname, hne, hg]
    exact ⟨g, hgmem, hgbad, heq, by rw [heq]; rfl⟩
  · rintro rfl htopic hname hformats hne hvalid ⟨t, ht, htname⟩
    have hfind : fs.find? (fun f => !decide (f ∈ VALID_CARD_TYPES)) = none := by
      rw [List.find?_eq_none]
      intro f hf
      simp [hvalid f hf]
    have hdup : (s.topics.find? (fun t => t.name == pstrip raw)).isSome := by
      rw [List.find?_isSome]
      exact ⟨t, ht, by simp [htname]⟩
    have heq : create_topic s now (some d)
        = (.conflict "Topic already exists", s) := by
      simp [create_topic, htopic, hformats, hname, hne, hfind, hdup]
    exact ⟨heq, by rw [heq]; rfl⟩

/-- A concrete stored topic used by the witnesses. -/
def topicGo : Topic := { id := 1, name := "Go", created_at := 0 }

/-- A concrete stored card used by the witnesses. -/
def cardQuiz : Card :=
  { id := 1, topic_id := 1, card_type := "quiz", content := "c", created_at := 0 }

/-- A concrete store used by the witnesses: one topic, one card. -/
def storeGo : Store :=
  { topics := [topicGo], cards := [cardQuiz], nextTopicId := 2, nextCardId := 2 }

/-- Witness for C2 on the concrete store: a whitespace-only name,
an invalid format entry, and a duplicate name. -/
theorem C2_create_topic_failures_witness :
    (create_topic storeGo 0
        (some (CreateBody.mk (some "  ") (some ["quiz"])))
        = (.badRequest "Topic name cannot be empty", storeGo))
    ∧ (∃ g ∈ ["poem"], g ∉ VALID_CARD_TYPES
        ∧ create_topic storeGo 0
            (some (CreateBody.mk (some "Rust") (some ["poem"])))
            = (.badFormat g VALID_CARD_TYPES, storeGo)
        ∧ (create_topic storeGo 0
            (some (CreateBody.mk (some "Rust") (some ["poem"])))).1.status = 400)
    ∧ (create_topic storeGo 0
        (some (CreateBody.mk (some "Go") (some ["quiz"])))
        = (.conflict "Topic already exists", storeGo)) :=
  ⟨((C2_create_topic_failures storeGo 0 _
      (CreateBody.mk (some "  ") (some ["quiz"])) "  " ["quiz"]).2.1
        rfl rfl (by decide)).1,
    (C2_create_topic_failures storeGo 0 _
      (CreateBody.mk (some "Rust") (some ["poem"])) "Rust" ["poem"]).2.2.1
        rfl rfl (by decide) rfl (by decide) ⟨"poem", by decide, by decide⟩,
    ((C2_create_topic_failures storeGo 0 _
      (CreateBody.mk (some "Go") (some ["quiz"])) "Go" ["quiz"]).2.2.2
        rfl rfl (by decide) rfl (by decide) (by decide)
        ⟨topicGo, by simp [storeGo], by decide⟩).1⟩

/-! ## C3: listing a topic's cards -/

/-- C3: GET /topics/{id}/cards returns 404 when the topic does not
exist (before any filter validation), 400 with the allowed set when a
filter is provided (a non-empty value) outside VALID_CARD_TYPES, and
otherwise 200 with exactly the stored cards of that topic, restricted
to the filtered card_type when a filter is provided. -/
theorem C3_get_topic_cards_spec (s : Store) (tid : Nat)
    (typ : Option String) (t0 : String) :
    ((∀ t ∈ s.topics, t.id ≠ tid) →
        get_topic_cards s tid typ = .notFound
          ∧ (get_topic_cards s tid typ).status = 404)
    ∧ ((∃ t ∈ s.topics, t.id = tid) → typ = some t0 → t0 ≠ "" →
        t0 ∉ VALID_CARD_TYPES →
        get_topic_cards s tid typ = .badType VALID_CARD_TYPES
          ∧ (get_topic_cards s tid typ).status = 400)
    ∧ ((∃ t ∈ s.topics, t.id = tid) → typ = some t0 → t0 ≠ "" →
        t0 ∈ VALID_CARD_TYPES →
        get_topic_cards s tid typ
          = .ok (s.cards.filter (fun c => c.topic_id == tid && c.card_type == t0)))
    ∧ ((∃ t ∈ s.topics, t.id = tid) → typ = none →
        get_topic_cards s tid typ
          = .ok (s.cards.filter (fun c => c.topic_id == tid))) := by
  refine ⟨?_, ?_, ?_, ?_⟩
  · intro h
    have hfind : s.topics.find? (fun t => t.id == tid) = none := by
      rw [List.find?_eq_none]
      intro t ht
      simp [h t ht]
    constructor
    · simp [get_topic_cards, hfind]
    · simp [get_topic_cards, hfind, ListResult.status]
  · rintro ⟨t, ht, htid⟩ rfl hne0 hbad
    have hsome : (s.topics.find? (fun t => t.id == tid)).isSome := by
      rw [List.find?_isSome]
      exact ⟨t, ht, by simp [htid]⟩
    obtain ⟨t', ht'⟩ := Option.isSome_iff_exists.mp hsome
    constructor
    · simp [get_topic_cards, ht', truthy, hne0, hbad]
    · simp [get_topic_cards, ht', truthy, hne0, hbad, ListResult.status]
  · rintro ⟨t, ht, htid⟩ rfl hne0 hgood
    have hsome : (s.topics.find? (fun t => t.id == tid)).isSome := by
      rw [List.find?_isSome]
      exact ⟨t, ht, by simp [htid]⟩
    obtain ⟨t', ht'⟩ := Option.isSome_iff_exists.mp hsome
    simp only [get_topic_cards, ht', truthy, hne0, hgood, List.filter_filter]
    have hcomm : (fun a : Card => a.card_type == t0 && a.topic_id == tid)
        = (fun c : Card => c.topic_id == tid && c.card_type == t0) := by
      funext c
      exact Bool.and_comm _ _
    simp [truthy, hne0, hgood, List.filter_filter, hcomm]
  · rintro ⟨t, ht, htid⟩ rfl
    have hsome : (s.topics.find? (fun t => t.id == tid)).isSome := by
      rw [List.find?_isSome]
      exact ⟨t, ht, by simp [htid]⟩
    obtain ⟨t', ht'⟩ := Option.isSome_iff_exists.mp hsome
    simp [get_topic_cards, ht', truthy]

/-- Witness for C3 on the concrete store: missing topic, invalid
filter, valid filter, and no filter. -/
theorem C3_get_topic_cards_spec_witness :
    (get_topic_cards storeGo 99 none = .notFound
      ∧ (get_topic_cards storeGo 99 none).status = 404)
    ∧ (get_topic_cards storeGo 1 (some "poem") = .badType VALID_CARD_TYPES
      ∧ (get_topic_cards storeGo 1 (some "poem")).status = 400)
    ∧ get_topic_cards storeGo 1 (some "quiz")
        = .ok (storeGo.cards.filter
            (fun c => c.topic_id == 1 && c.card_type == "quiz"))
    ∧ get_topic_cards storeGo 1 none
        = .ok (storeGo.cards.filter (fun c => c.topic_id == 1)) :=
  ⟨(C3_get_topic_cards_spec storeGo 99 none "x").1 (by decide),
    (C3_get_topic_cards_spec storeGo 1 (some "poem") "poem").2.1
      ⟨topicGo, by simp [storeGo], by decide⟩ rfl (by decide) (by decide),
    (C3_get_topic_cards_spec storeGo 1 (some "quiz") "quiz").2.2.1
      ⟨topicGo, by simp [storeGo], by decide⟩ rfl (by decide) (by decide),
    (C3_get_topic_cards_spec storeGo 1 none "x").2.2.2
      ⟨topicGo, by simp [storeGo], by decide⟩ rfl⟩

/-! ## C7: the global card listing -/

/-- C7: GET /cards with filter type=quiz returns 200 with exactly the
stored cards whose card_type is "quiz", across all topics; with a
provided (non-empty) filter value outside VALID_CARD_TYPES it returns
400 with the full allowed-types set, for every store state. -/
theorem C7_get_cards_spec (s : Store) (typ : Option String) (t0 : String) :
    (get_cards s (some "quiz")
        = .ok (s.cards.filter (fun c => c.card_type == "quiz"))
      ∧ (get_cards s (some "quiz")).status = 200)
    ∧ (typ = some t0 → t0 ≠ "" → t0 ∉ VALID_CARD_TYPES →
        get_cards s typ = .badType VALID_CARD_TYPES
          ∧ (get_cards s typ).status = 400) := by
  constructor
  · have h1 : truthy (some "quiz") = true := by decide
    have h2 : "quiz" ∈ VALID_CARD_TYPES := by decide
    constructor
    · simp [get_cards, h1, h2]
    · simp [get_cards, h1, h2, ListResult.status]
  · rintro rfl hne0 hbad
    constructor
    · simp [get_cards, truthy, hne0, hbad]
    · simp [get_cards, truthy, hne0, hbad, ListResult.status]

/-- Witness for C7 on the concrete store: the quiz filter and the
invalid filter "poem". -/
theorem C7_get_cards_spec_witness :
    (get_cards storeGo (some "quiz")
        = .ok (storeGo.cards.filter (fun c => c.card_type == "quiz")))
    ∧ (get_cards storeGo (some "poem") = .badType VALID_CARD_TYPES
        ∧ (get_cards storeGo (some "poem")).status = 400) :=
  ⟨((C7_get_cards_spec storeGo (some "poem") "poem").1).1,
    (C7_get_cards_spec storeGo (some "poem") "poem").2 rfl (by decide) (by decide)⟩

/-! ## C9: an empty 'type' parameter means no filter -/

/-- C9: when the 'type' query parameter is provided but equal to the
empty string, both card-listing endpoints treat the request as
unfiltered: 200 with the unfiltered list, identical to omitting the
parameter, not a 400 validation error. -/
theorem C9_empty_filter_is_no_filter (s : Store) (tid : Nat) :
    (get_cards s (some "") = .ok s.cards
      ∧ get_cards s (some "") = get_cards s none
      ∧ (get_cards s (some "")).status = 200)
    ∧ ((∃ t ∈ s.topics, t.id = tid) →
        get_topic_cards s tid (some "")
            = .ok (s.cards.filter (fun c => c.topic_id == tid))
          ∧ get_topic_cards s tid (some "")
            = get_topic_cards s tid none) := by
  constructor
  · refine ⟨by simp [get_cards, truthy], by simp [get_cards, truthy], ?_⟩
    simp [get_cards, truthy, ListResult.status]
  · rintro ⟨t, ht, htid⟩
    have hsome : (s.topics.find? (fun t => t.id == tid)).isSome := by
      rw [List.find?_isSome]
      exact ⟨t, ht, by simp [htid]⟩
    obtain ⟨t', ht'⟩ := Option.isSome_iff_exists.mp hsome
    exact ⟨by simp [get_topic_cards, ht', truthy],
      by simp [get_topic_cards, ht', truthy]⟩

/-- Witness for C9 on the concrete store at topic id 1. -/
theorem C9_empty_filter_is_no_filter_witness :
    (get_cards storeGo (some "") = .ok storeGo.cards)
    ∧ (get_topic_cards storeGo 1 (some "")
        = .ok (storeGo.cards.filter (fun c => c.topic_id == 1))) :=
  ⟨((C9_empty_filter_is_no_filter storeGo 1).1).1,
    ((C9_empty_filter_is_no_filter storeGo 1).2
      ⟨topicGo, by simp [storeGo], by decide⟩).1⟩

/-! ## C8: deleting a card -/

theorem removeCard_of_find? (cards : List Card) (cid : Nat) (c : Card)
    (h : cards.find? (fun x => x.id == cid) = some c) :
    ∃ pre post, cards = pre ++ c :: post
      ∧ removeCard cards cid = pre ++ post
      ∧ ∀ y ∈ pre, y.id ≠ cid := by
  induction cards with
  | nil => simp at h
  | cons x xs ih =>
    by_cases hx : x.id = cid
    · have hcx : c = x := by
        rw [List.find?_cons_of_pos _ (by simp [hx])] at h
        exact (Option.some_injective _ h).symm
      subst hcx
      exact ⟨[], xs, rfl, by simp [removeCard, hx], by simp⟩
    · rw [List.find?_cons_of_neg _ (by simp [hx])] at h
      obtain ⟨pre, post, h1, h2, h3⟩ := ih h
      refine ⟨x :: pre, post, by simp [h1], by simp [removeCard, hx, h2], ?_⟩
      intro y hy
      rcases List.mem_cons.mp hy with rfl | hy
      · exact hx
      · exact h3 y hy

theorem removeCard_find?_none (cards : List Card) (cid : Nat) (c : Card)
    (hnd : cards.Pairwise (fun a b => a.id ≠ b.id))
    (h : cards.find? (fun x => x.id == cid) = some c) :
    (removeCard cards cid).find? (fun x => x.id == cid) = none := by
  obtain ⟨pre, post, h1, h2, h3⟩ := removeCard_of_find? cards cid c h
  have hcid : c.id = cid := by simpa using List.find?_some h
  rw [h2, List.find?_eq_none]
  intro y hy
  rcases List.mem_append.mp hy with hy | hy
  · simpa using h3 y hy
  · rw [h1] at hnd
    have hpair := (List.pairwise_append.mp hnd).2.1
    have hcy := (List.pairwise_cons.mp hpair).1 y hy
    have hne : y.id ≠ cid := fun hyc => hcy (hcid.trans hyc.symm)
    simpa using hne

/-- C8: DELETE /cards/{id} returns 404 and leaves the store unchanged
when no card has the given id; otherwise it removes exactly that card,
returns 200 with a confirmation carrying status "deleted" and the
deleted id, and (with unique card ids) a second delete of the same id
returns 404. -/
theorem C8_delete_card_spec (s : Store) (cid : Nat) :
    ((∀ c ∈ s.cards, c.id ≠ cid) →
        delete_card s cid = (.notFound, s)
          ∧ (delete_card s cid).1.status = 404)
    ∧ (∀ c, s.cards.find? (fun x => x.id == cid) = some c →
        (delete_card s cid).1 = .deleted "deleted" cid
          ∧ (delete_card s cid).1.status = 200
          ∧ (delete_card s cid).2.topics = s.topics
          ∧ ∃ pre post, s.cards = pre ++ c :: post
              ∧ (delete_card s cid).2.cards = pre ++ post
              ∧ ∀ y ∈ pre, y.id ≠ cid)
    ∧ (s.cards.Pairwise (fun a b => a.id ≠ b.id) →
        ∀ c, s.cards.find? (fun x => x.id == cid) = some c →
        (delete_card s cid).1.status = 200
          ∧ (delete_card (delete_card s cid).2 cid).1 = .notFound
          ∧ (delete_card (delete_card s cid).2 cid).1.status = 404) := by
  refine ⟨?_, ?_, ?_⟩
  · intro h
    have hfind : s.cards.find? (fun x => x.id == cid) = none := by
      rw [List.find?_eq_none]
      intro x hx
      simp [h x hx]
    constructor
    · simp [delete_card, hfind]
    · simp [delete_card, hfind]; rfl
  · intro c h
    have heq : delete_card s cid
        = (.deleted "deleted" cid, { s with cards := removeCard s.cards cid }) := by
      simp [delete_card, h]
    obtain ⟨pre, post, h1, h2, h3⟩ := removeCard_of_find? s.cards cid c h
    exact ⟨by rw [heq], by rw [heq]; rfl, by rw [heq],
      pre, post, h1, by rw [heq]; exact h2, h3⟩
  · intro hnd c h
    have heq : delete_card s cid
        = (.deleted "deleted" cid, { s with cards := removeCard s.cards cid }) := by
      simp [delete_card, h]
    have hnone : (removeCard s.cards cid).find? (fun x => x.id == cid) = none :=
      removeCard_find?_none s.cards cid c hnd h
    refine ⟨by rw [heq]; rfl, ?_, ?_⟩
    · rw [heq]
      simp [delete_card, hnone]
    · rw [heq]
      simp [delete_card, hnone]
      rfl

/-- Witness for C8 on the concrete store: delete card 1 twice and
delete a missing id. -/
theorem C8_delete_card_spec_witness :
    ((delete_card storeGo 1).1 = .deleted "deleted" 1
      ∧ (delete_card storeGo 1).1.status = 200)
    ∧ ((delete_card (delete_card storeGo 1).2 1).1 = .notFound
      ∧ (delete_card (delete_card storeGo 1).2 1).1.status = 404)
    ∧ delete_card storeGo 99 = (.notFound, storeGo) :=
  ⟨⟨((C8_delete_card_spec storeGo 1).2.1 cardQuiz rfl).1,
      ((C8_delete_card_spec storeGo 1).2.1 cardQuiz rfl).2.1⟩,
    ⟨((C8_delete_card_spec storeGo 1).2.2 (by simp [storeGo]) cardQuiz rfl).2.1,
      ((C8_delete_card_spec storeGo 1).2.2 (by simp [storeGo]) cardQuiz rfl).2.2⟩,
    ((C8_delete_card_spec storeGo 99).1 (by decide)).1⟩

/-! ## C6 and C10: updating a card -/

theorem setCard_of_find? (cards : List Card) (cid : Nat) (c c' : Card)
    (h : cards.find? (fun x => x.id == cid) = some c) :
    ∃ pre post, cards = pre ++ c :: post
      ∧ setCard cards cid c' = pre ++ c' :: post
      ∧ ∀ y ∈ pre, y.id ≠ cid := by
  induction cards with
  | nil => simp at h
  | cons x xs ih =>
    by_cases hx : x.id = cid
    · have hcx : c = x := by
        rw [List.find?_cons_of_pos _ (by simp [hx])] at h
        exact (Option.some_injective _ h).symm
      subst hcx
      exact ⟨[], xs, rfl, by simp [setCard, hx], by simp⟩
    · rw [List.find?_cons_of_neg _ (by simp [hx])] at h
      obtain ⟨pre, post, h1, h2, h3⟩ := ih h
      refine ⟨x :: pre, post, by simp [h1], by simp [setCard, hx, h2], ?_⟩
      intro y hy
      rcases List.mem_cons.mp hy with rfl | hy
      · exact hx
      · exact h3 y hy

theorem setCard_self (cards : List Card) (cid : Nat) (c : Card)
    (h : cards.find? (fun x => x.id == cid) = some c) :
    setCard cards cid c = cards := by
  obtain ⟨pre, post, h1, h2, _⟩ := setCard_of_find? cards cid c c h
  rw [h2, h1]

theorem applyBody_id (d : UpdateBody) (c : Card) : (applyBody d c).id = c.id := by
  rcases d with ⟨ct, co⟩
  rcases ct <;> rcases co <;> rfl

theorem applyBody_topic_id (d : UpdateBody) (c : Card) :
    (applyBody d c).topic_id = c.topic_id := by
  rcases d with ⟨ct, co⟩
  rcases ct <;> rcases co <;> rfl

theorem applyBody_created_at (d : UpdateBody) (c : Card) :
    (applyBody d c).created_at = c.created_at := by
  rcases d with ⟨ct, co⟩
  rcases ct <;> rcases co <;> rfl

theorem applyBody_card_type (d : UpdateBody) (c : Card) :
    (applyBody d c).card_type = d.card_type.getD c.card_type := by
  rcases d with ⟨ct, co⟩
  rcases ct <;> rcases co <;> rfl

theorem applyBody_content (d : UpdateBody) (c : Card) :
    (applyBody d c).content = d.content.getD c.content := by
  rcases d with ⟨ct, co⟩
  rcases ct <;> rcases co <;> rfl

/-- Counterexample to C6 as stated: card 1 exists in the concrete
store, yet an update whose body provides the (present but invalid)
card_type "bogus" returns 400, not 200 with the updated card. -/
theorem C6_update_card_counterexample :
    (∃ c ∈ storeGo.cards, c.id = 1)
    ∧ (update_card storeGo 1
        (some (UpdateBody.mk (some "bogus") none))).1.status ≠ 200
    ∧ (update_card storeGo 1
        (some (UpdateBody.mk (some "bogus") none))).1.status = 400 := by
  refine ⟨⟨cardQuiz, by simp [storeGo], rfl⟩, by decide, by decide⟩

/-- C6 (amended): a nonexistent card id gives 404 and no change; an
existing card with a provided but invalid card_type gives 400 and no
change; otherwise only the provided fields change on that one card —
its id, topic_id and created_at, and every other Card and Topic, stay
as they were — and the updated card is returned with 200. -/
theorem C6_update_card_spec (s : Store) (cid : Nat) (data : Option UpdateBody)
    (d : UpdateBody) (c : Card) (nct : String) :
    ((∀ x ∈ s.cards, x.id ≠ cid) →
        update_card s cid data = (.notFound, s)
          ∧ (update_card s cid data).1.status = 404)
    ∧ (s.cards.find? (fun x => x.id == cid) = some c →
        data.getD ⟨none, none⟩ = d →
        d.card_type = some nct → nct ∉ VALID_CARD_TYPES →
        update_card s cid data = (.badType VALID_CARD_TYPES, s)
          ∧ (update_card s cid data).1.status = 400)
    ∧ (s.cards.find? (fun x => x.id == cid) = some c →
        data.getD ⟨none, none⟩ = d →
        (d.card_type = none
          ∨ ∃ v, d.card_type = some v ∧ v ∈ VALID_CARD_TYPES) →
        (update_card s cid data).1 = .ok (applyBody d c)
          ∧ (update_card s cid data).1.status = 200
          ∧ (update_card s cid data).2.topics = s.topics
          ∧ (applyBody d c).id = c.id
          ∧ (applyBody d c).topic_id = c.topic_id
          ∧ (applyBody d c).created_at = c.created_at
          ∧ (applyBody d c).card_type = d.card_type.getD c.card_type
          ∧ (applyBody d c).content = d.content.getD c.content
          ∧ ∃ pre post, s.cards = pre ++ c :: post
              ∧ (update_card s cid data).2.cards
                  = pre ++ applyBody d c :: post
              ∧ ∀ y ∈ pre, y.id ≠ cid) := by
  refine ⟨?_, ?_, ?_⟩
  · intro h
    have hfind : s.cards.find? (fun x => x.id == cid) = none := by
      rw [List.find?_eq_none]
      intro x hx
      simp [h x hx]
    constructor
    · simp [update_card, hfind]
    · simp [update_card, hfind]; rfl
  · intro h hd hct hbad
    have heq : update_card s cid data = (.badType VALID_CARD_TYPES, s) := by
      simp [update_card, h, hd, hct, hbad]
    exact ⟨heq, by rw [heq]; rfl⟩
  · intro h hd hok
    have heq : update_card s cid data
        = (.ok (applyBody d c),
            { s with cards := setCard s.cards cid (applyBody d c) }) := by
      rcases hok with hnone | ⟨v, hv, hvmem⟩
      · simp [update_card, h, hd, hnone]
      · simp [update_card, h, hd, hv, hvmem]
    obtain ⟨pre, post, h1, h2, h3⟩ :=
      setCard_of_find? s.cards cid c (applyBody d c) h
    exact ⟨by rw [heq], by rw [heq]; rfl, by rw [heq],
      applyBody_id d c, applyBody_topic_id d c, applyBody_created_at d c,
      applyBody_card_type d c, applyBody_content d c,
      pre, post, h1, by rw [heq]; exact h2, h3⟩

/-- Witness for C6 on the concrete store: a content-only update of
card 1, a missing id, and an invalid card_type. -/
theorem C6_update_card_spec_witness :
    ((update_card storeGo 1 (some (UpdateBody.mk none (some "new")))).1
        = .ok (applyBody (UpdateBody.mk none (some "new")) cardQuiz))
    ∧ (update_card storeGo 99 none = (.notFound, storeGo))
    ∧ (update_card storeGo 1 (some (UpdateBody.mk (some "bogus") none))
        = (.badType VALID_CARD_TYPES, storeGo)) :=
  ⟨((C6_update_card_spec storeGo 1 (some (UpdateBody.mk none (some "new")))
      (UpdateBody.mk none (some "new")) cardQuiz "x").2.2
        rfl rfl (Or.inl rfl)).1,
    ((C6_update_card_spec storeGo 99 none (UpdateBody.mk none none)
      cardQuiz "x").1 (by decide)).1,
    ((C6_update_card_spec storeGo 1 (some (UpdateBody.mk (some "bogus") none))
      (UpdateBody.mk (some "bogus") none) cardQuiz "bogus").2.1
        rfl rfl rfl (by decide)).1⟩

/-- C10: an update-card request on an existing card whose body is
absent, not JSON, or provides neither 'card_type' nor 'content'
succeeds as a no-op: 200 with the card exactly as stored, and the
store unchanged. -/
theorem C10_update_card_noop (s : Store) (cid : Nat)
    (data : Option UpdateBody) (c : Card)
    (h : s.cards.find? (fun x => x.id == cid) = some c)
    (hd : data = none ∨ data = some ⟨none, none⟩) :
    update_card s cid data = (.ok c, s)
      ∧ (update_card s cid data).1.status = 200 := by
  have hgetD : data.getD ⟨none, none⟩ = (⟨none, none⟩ : UpdateBody) := by
    rcases hd with rfl | rfl <;> rfl
  have hset : setCard s.cards cid c = s.cards := setCard_self s.cards cid c h
  have heq : update_card s cid data = (.ok c, s) := by
    have happ : applyBody ⟨none, none⟩ c = c := rfl
    simp [update_card, h, hgetD, happ, hset]
  exact ⟨heq, by rw [heq]; rfl⟩

/-- Witness for C10: card 1 of the concrete store with an absent body
and with an empty JSON body. -/
theorem C10_update_card_noop_witness :
    update_card storeGo 1 none = (.ok cardQuiz, storeGo)
      ∧ update_card storeGo 1 (some (UpdateBody.mk none none))
          = (.ok cardQuiz, storeGo) :=
  ⟨(C10_update_card_noop storeGo 1 none cardQuiz rfl (Or.inl rfl)).1,
    (C10_update_card_noop storeGo 1 (some ⟨none, none⟩) cardQuiz rfl
      (Or.inr rfl)).1⟩

/-! ## C5: the data-model invariant on reachable stores -/

theorem create_topic_cases (s : Store) (now : Nat) (data : Option CreateBody) :
    (create_topic s now data).2 = s
      ∨ ∃ raw fs, (∀ f ∈ fs, f ∈ VALID_CARD_TYPES)
          ∧ (create_topic s now data).2 =
              Store.mk (s.topics ++ [Topic.mk s.nextTopicId (pstrip raw) now])
                (s.cards ++ mkCards s.nextTopicId (pstrip raw) now s.nextCardId fs)
                (s.nextTopicId + 1) (s.nextCardId + fs.length) := by
  cases data with
  | none => left; rfl
  | some d =>
    cases hraw : d.topic with
    | none => left; simp [create_topic, hraw]
    | some raw =>
      by_cases hname : pstrip raw = ""
      · left; simp [create_topic, hraw, hname]
      · by_cases hne : d.formats.getD [] = []
        · left; simp [create_topic, hraw, hname, hne]
        · cases hfind : (d.formats.getD []).find?
              (fun f => !decide (f ∈ VALID_CARD_TYPES)) with
          | some f => left; simp [create_topic, hraw, hname, hne, hfind]
          | none =>
            by_cases hdup : (s.topics.find? (fun t => t.name == pstrip raw)).isSome
            · left; simp [create_topic, hraw, hname, hne, hfind, hdup]
            · right
              refine ⟨raw, d.formats.getD [], ?_, ?_⟩
              · intro f hf
                have := List.find?_eq_none.mp hfind f hf
                simpa using this
              · simp [create_topic, hraw, hname, hne, hfind, hdup]

theorem Invariant_create (s : Store) (now : Nat) (data : Option CreateBody)
    (hs : Invariant s) : Invariant (create_topic s now data).2 := by
  rcases create_topic_cases s now data with h | ⟨raw, fs, hvalid, h⟩
  · rw [h]; exact hs
  · rw [h]
    intro c hc
    rcases List.mem_append.mp hc with hc | hc
    · obtain ⟨hv, t, ht, hid⟩ := hs c hc
      exact ⟨hv, t, List.mem_append_left _ ht, hid⟩
    · constructor
      · have hmem : c.card_type ∈ fs := by
          have hmap := mkCards_map_card_type s.nextTopicId (pstrip raw) now
            s.nextCardId fs
          rw [← hmap]
          exact List.mem_map_of_mem _ hc
        exact hvalid _ hmem
      · refine ⟨Topic.mk s.nextTopicId (pstrip raw) now,
          List.mem_append_right _ (by simp), ?_⟩
        exact (mkCards_topic_id _ _ _ _ _ c hc).symm

theorem update_card_snd (s : Store) (cid : Nat) (data : Option UpdateBody) :
    (update_card s cid data).2 = s
      ∨ ∃ c, s.cards.find? (fun x => x.id == cid) = some c
          ∧ ((data.getD ⟨none, none⟩).card_type = none
              ∨ ∃ v, (data.getD ⟨none, none⟩).card_type = some v
                  ∧ v ∈ VALID_CARD_TYPES)
          ∧ (update_card s cid data).2
              = { s with cards :=
                  setCard s.cards cid (applyBody (data.getD ⟨none, none⟩) c) } := by
  cases hfind : s.cards.find? (fun x => x.id == cid) with
  | none => left; simp [update_card, hfind]
  | some c =>
    cases hct : (data.getD ⟨none, none⟩).card_type with
    | none =>
      right
      exact ⟨c, rfl, Or.inl rfl, by simp [update_card, hfind, hct]⟩
    | some nct =>
      by_cases hv : nct ∈ VALID_CARD_TYPES
      · right
        exact ⟨c, rfl, Or.inr ⟨nct, rfl, hv⟩,
          by simp [update_card, hfind, hct, hv]⟩
      · left
        simp [update_card, hfind, hct, hv]

theorem Invariant_update (s : Store) (cid : Nat) (data : Option UpdateBody)
    (hs : Invariant s) : Invariant (update_card s cid data).2 := by
  rcases update_card_snd s cid data with h | ⟨c, hfind, hok, heq⟩
  · rw [h]; exact hs
  · rw [heq]
    have hcmem : c ∈ s.cards := List.mem_of_find?_eq_some hfind
    obtain ⟨pre, post, h1, h2, _⟩ :=
      setCard_of_find? s.cards cid c (applyBody (data.getD ⟨none, none⟩) c) hfind
    intro x hx
    have hx' : x ∈ pre ++ applyBody (data.getD ⟨none, none⟩) c :: post := by
      rw [← h2]; exact hx
    rcases List.mem_append.mp hx' with hxp | hxc
    · have hxs : x ∈ s.cards := by
        rw [h1]; exact List.mem_append_left _ hxp
      exact hs x hxs
    · rcases List.mem_cons.mp hxc with rfl | hxpost
      · constructor
        · rw [applyBody_card_type]
          rcases hok with hnone | ⟨v, hv, hvmem⟩
          · rw [hnone]
            simpa using (hs c hcmem).1
          · rw [hv]
            simpa using hvmem
        · obtain ⟨_, t, ht, hid⟩ := hs c hcmem
          refine ⟨t, ht, ?_⟩
          rw [applyBody_topic_id]
          exact hid
      · have hxs : x ∈ s.cards := by
          rw [h1]
          exact List.mem_append_right _ (List.mem_cons_of_mem _ hxpost)
        exact hs x hxs

theorem Invariant_delete (s : Store) (cid : Nat)
    (hs : Invariant s) : Invariant (delete_card s cid).2 := by
  cases hfind : s.cards.find? (fun x => x.id == cid) with
  | none =>
    have h : (delete_card s cid).2 = s := by simp [delete_card, hfind]
    rw [h]; exact hs
  | some c =>
    have heq : (delete_card s cid).2
        = { s with cards := removeCard s.cards cid } := by
      simp [delete_card, hfind]
    rw [heq]
    obtain ⟨pre, post, h1, h2, _⟩ := removeCard_of_find? s.cards cid c hfind
    intro x hx
    have hx' : x ∈ pre ++ post := by
      rw [← h2]; exact hx
    have hxs : x ∈ s.cards := by
      rw [h1]
      rcases List.mem_append.mp hx' with hxp | hxq
      · exact List.mem_append_left _ hxp
      · exact List.mem_append_right _ (List.mem_cons_of_mem _ hxq)
    exact hs x hxs

/-- C5: in every store state reachable through the exposed operations
(create topic with its cards, update card, delete card), every stored
Card has card_type in VALID_CARD_TYPES and topic_id equal to the id of
a Topic present in the store. -/
theorem C5_reachable_invariant (s : Store) (h : Reachable s) : Invariant s := by
  induction h with
  | init => intro c hc; exact absurd hc (List.not_mem_nil c)
  | create now data _ ih => exact Invariant_create _ now data ih
  | update cid data _ ih => exact Invariant_update _ cid data ih
  | delete cid _ ih => exact Invariant_delete _ cid ih

/-- Witness for C5: the store reached by one successful topic creation
from the empty database satisfies the invariant. -/
theorem C5_reachable_invariant_witness :
    Invariant (create_topic Store.empty 0
      (some (CreateBody.mk (some "Go") (some ["quiz"])))).2 :=
  C5_reachable_invariant _ (Reachable.create 0 _ Reachable.init)
